import Mathlib

/-!
Verification of the authentication core of the personal budget tracker.

The repository contains two near-duplicate snapshots of the auth module:
the top-level `auth.py` (mounted by `main.py`, exercised by the tests) and
the nested `src/auth.py`.  Both are embedded below; definitions carry the
snapshot in their name (`nested_*` for the nested snapshot).

Modelling conventions:
* machine time is integer Unix seconds (`Int`);
* a JWT string is either a well-formed token signed with some key under
  some algorithm, or an arbitrary non-JWT string (`malformed`) — the
  standard symbolic model of an unforgeable MAC;
* Python exceptions that the code can raise are explicit (`Except`);
* bcrypt is modelled by its contract: `verify p (hash s p) = true`, and
  verification fails on any other plaintext (collisions ignored).
-/

namespace Budget

/-- The subset of Python/JSON values a `user_id` claim can hold in the
    scenarios under study: an integer or a string. -/
inductive PyVal where
  | vint (i : Int)
  | vstr (s : String)
  deriving DecidableEq

/-- Python exceptions relevant to `decode_access_token`:
    `int(...)` raises `ValueError` on an unparsable string and
    `TypeError` on `None` (a missing claim, since `dict.get` returns
    `None`). -/
inductive PyError where
  | valueError
  | typeError
  deriving DecidableEq

/-- Value of a list of decimal digits, most significant first; `none`
    when a non-digit occurs. -/
def decDigits (acc : Nat) : List Char → Option Nat
  | [] => some acc
  | c :: rest =>
    if c.isDigit then decDigits (10 * acc + (c.toNat - 48)) rest else none

/-- Python `int(s)` on a string: an optional sign followed by at least
    one decimal digit (the whitespace and underscore forms accepted by
    CPython do not occur in the inputs under study); anything else
    raises `ValueError`. -/
def pyIntOfString (s : String) : Option Int :=
  match s.data with
  | [] => none
  | '-' :: rest =>
    if rest.isEmpty then none
    else (decDigits 0 rest).map (fun n => -(n : Int))
  | '+' :: rest =>
    if rest.isEmpty then none
    else (decDigits 0 rest).map (fun n => (n : Int))
  | l => (decDigits 0 l).map (fun n => (n : Int))

/-- Python `int(x)` applied to the result of `payload.get("user_id")`:
    `None` (missing key) raises `TypeError`; an `int` is returned as is;
    a string is parsed as an integer literal, raising `ValueError` when
    it is not one. -/
def pyInt : Option PyVal → Except PyError Int
  | none => .error .typeError
  | some (.vint i) => .ok i
  | some (.vstr s) =>
    match pyIntOfString s with
    | some i => .ok i
    | none => .error .valueError

/-- Python `str.lower()` on the ASCII header schemes in play. -/
def pyLower (s : String) : String :=
  ⟨s.data.map Char.toLower⟩

/-- An opaque bcrypt digest: the random salt together with the hashed
    plaintext (symbolic model of the one-way hash). -/
structure Digest where
  salt : Nat
  plaintext : String
  deriving DecidableEq

/-- Model of `bcrypt_context.hash(password)`; the salt is the ambient randomness
    of the call. -/
def bcryptHash (salt : Nat) (password : String) : Digest :=
  ⟨salt, password⟩

/-- Model of `bcrypt_context.verify(password, digest)`: true exactly when the
    plaintext matches the one that was hashed. -/
def bcryptVerify (password : String) (digest : Digest) : Bool :=
  password == digest.plaintext

/-- The claims set of a JWT as used by this app: an optional
    `user_id` claim and an optional integral `exp` timestamp. -/
structure JwtPayload where
  user_id : Option PyVal
  exp : Option Int
  deriving DecidableEq

/-- A token string: either a JWT signed with `key` under algorithm
    `alg`, or any other string. -/
inductive TokenStr where
  | signed (payload : JwtPayload) (key : String) (alg : String)
  | malformed (s : String)
  deriving DecidableEq

/-- Python truthiness of the token string (`if not token`): a signed JWT
    serialises to a non-empty string, so only the empty plain string is
    falsy. -/
def TokenStr.truthy : TokenStr → Bool
  | .signed _ _ _ => true
  | .malformed s => !s.isEmpty

/-- Failure modes of `jose.jwt.decode`; all of them are raised as (a
    subclass of) `JWTError`. -/
inductive JwtError where
  | invalidToken
  | invalidAlgorithm
  | invalidSignature
  | expiredSignature
  deriving DecidableEq

/-- Model of `jose.jwt.decode(token, key, algorithms=algs)` at time `now`.
    The signature/algorithm checks come first (`jws.verify`), then claim
    validation: python-jose `_validate_exp` raises `ExpiredSignatureError`
    iff `int(claims["exp"]) < now - leeway` with the default `leeway = 0`
    (a token is still accepted when `exp == now`); a token without an
    `exp` claim skips the check. -/
def jwtDecode (key : String) (algs : List String) (now : Int) :
    TokenStr → Except JwtError JwtPayload
  | .malformed _ => .error .invalidToken
  | .signed payload k alg =>
    if alg ∉ algs then .error .invalidAlgorithm
    else if k ≠ key then .error .invalidSignature
    else
      match payload.exp with
      | some e => if e < now then .error .expiredSignature else .ok payload
      | none => .ok payload

/-- Process-wide configuration, read from the environment once at
    startup; the defaults are the fallbacks in `auth.py`
    (`os.getenv("SECRET_KEY", "your_default_secret")`,
    `os.getenv("ACCESS_TOKEN_EXPIRE_MINUTES", "1440")`). -/
structure Config where
  SECRET_KEY : String := "your_default_secret"
  ACCESS_TOKEN_EXPIRE_MINUTES : Nat := 1440
  deriving DecidableEq

/-- The constant `ALGORITHM = "HS256"`. -/
def ALGORITHM : String := "HS256"

/-- A row of the `users` table (`models.Users`). -/
structure Users where
  user_id : Int
  username : String
  hashed_password : Digest
  is_active : Bool := true
  is_superuser : Bool := false
  deriving DecidableEq

/-- The users table plus the autoincrement counter of its primary key. -/
structure Db where
  rows : List Users
  nextId : Int
  deriving DecidableEq

/-- Lookup `db.query(Users).filter(Users.username == username).first()`. -/
def findByUsername (db : Db) (username : String) : Option Users :=
  db.rows.find? (fun r => r.username == username)

/-- Lookup `db.query(Users).filter(Users.user_id == user_id).first()`. -/
def findById (db : Db) (user_id : Int) : Option Users :=
  db.rows.find? (fun r => r.user_id == user_id)

/-! ## Top-level snapshot `auth.py` -/

/-- Function `create_access_token(user_id, expires_delta)`:
    `{"user_id": user_id, "exp": (datetime.now() + expires_delta).timestamp()}`
    signed with the secret key under HS256; `expires_delta` in seconds. -/
def create_access_token (key : String) (now : Int) (user_id : Int)
    (expires_delta : Int) : TokenStr :=
  .signed { user_id := some (.vint user_id), exp := some (now + expires_delta) }
    key ALGORITHM

/-- Function `decode_access_token(token)` of the top-level snapshot:
    `int(jwt.decode(...).get("user_id"))` with
    `except (JWTError, ValueError): return None` — a `TypeError` from
    `int(None)` is not caught and escapes. -/
def decode_access_token (key : String) (now : Int) (token : TokenStr) :
    Except PyError (Option Int) :=
  match jwtDecode key [ALGORITHM] now token with
  | .error _ => .ok none
  | .ok payload =>
    match pyInt payload.user_id with
    | .ok i => .ok (some i)
    | .error .valueError => .ok none
    | .error .typeError => .error .typeError

/-- Function `create_user_in_db(username, password, db)` of the top-level
    snapshot: on an existing username return `None` without touching the
    database, otherwise add and commit the new user. -/
def create_user_in_db (salt : Nat) (username password : String) (db : Db) :
    Option Users × Db :=
  match findByUsername db username with
  | some _ => (none, db)
  | none =>
    let new_user : Users :=
      { user_id := db.nextId, username := username,
        hashed_password := bcryptHash salt password }
    (some new_user, { rows := db.rows ++ [new_user], nextId := db.nextId + 1 })

/-- Outcome of a JSON API endpoint: a success body or an
    `HTTPException`. -/
inductive ApiResult where
  | success (status : Nat) (message : String)
  | httpError (status : Nat) (detail : String)
  deriving DecidableEq

/-- Route `POST /auth/` (`create_user`) of the top-level snapshot. -/
def create_user (salt : Nat) (username password : String) (db : Db) :
    ApiResult × Db :=
  match create_user_in_db salt username password db with
  | (none, db1) => (.httpError 400 "Username already exists.", db1)
  | (some _, db1) => (.success 201 "User created successfully", db1)

/-- The `Token` response schema. -/
structure Token where
  access_token : TokenStr
  token_type : String
  deriving DecidableEq

/-- Outcome of `POST /auth/token`. -/
inductive LoginResult where
  | ok (t : Token)
  | httpError (status : Nat) (detail : String)
  deriving DecidableEq

/-- Route handler `login_for_access_token` (`POST /auth/token`): look up by username;
    `if not user or not bcrypt_context.verify(...)` raise
    401 "Invalid credentials."; otherwise issue a token with the
    configured TTL (minutes, hence `* 60` seconds). -/
def login_for_access_token (cfg : Config) (now : Int)
    (username password : String) (db : Db) : LoginResult :=
  match findByUsername db username with
  | none => .httpError 401 "Invalid credentials."
  | some user =>
    if bcryptVerify password user.hashed_password then
      .ok { access_token :=
              create_access_token cfg.SECRET_KEY now user.user_id
                (cfg.ACCESS_TOKEN_EXPIRE_MINUTES * 60),
            token_type := "bearer" }
    else .httpError 401 "Invalid credentials."

/-- The `Authorization` header after
    `get_authorization_scheme_param` (`partition(" ")`): the scheme and
    the remainder; a header without a space yields `param = ""`,
    modelled as `.malformed ""`. -/
structure AuthHeader where
  scheme : String
  param : TokenStr
  deriving DecidableEq

/-- An inbound request as seen by the resolver: the optional
    `Authorization` header and the optional `access_token` cookie. -/
structure Request where
  authorization : Option AuthHeader
  access_token_cookie : Option TokenStr
  deriving DecidableEq

/-- Dependency `OAuth2PasswordBearer(tokenUrl="auth/token")` with the default
    `auto_error=True`: when the header is absent or its scheme is not
    (case-insensitively) `bearer`, raise 401 "Not authenticated" before
    the route handler runs; otherwise hand the handler the parameter. -/
def oauth2_scheme (req : Request) : Except (Nat × String) TokenStr :=
  match req.authorization with
  | none => .error (401, "Not authenticated")
  | some h =>
    if pyLower h.scheme == "bearer" then .ok h.param
    else .error (401, "Not authenticated")

/-- Outcome of `GET /auth/me`. -/
inductive MeOutcome where
  | ok (u : Users)
  | httpError (status : Nat) (detail : String)
  | uncaught (e : PyError)
  deriving DecidableEq

/-- The body of the top-level `get_current_user`, entered with the token
    the `oauth2_scheme` dependency produced: re-extract from the header
    when its scheme is bearer, fall back to the cookie only when the
    token is falsy (`if not token and access_token_cookie`), then decode
    and look the subject up. -/
def get_current_user_body (key : String) (now : Int) (req : Request)
    (db : Db) (token0 : TokenStr) : MeOutcome :=
  let token1 : TokenStr :=
    match req.authorization with
    | some h => if pyLower h.scheme == "bearer" then h.param else token0
    | none => token0
  let token2 : TokenStr :=
    if token1.truthy then token1
    else
      match req.access_token_cookie with
      | some c => if c.truthy then c else token1
      | none => token1
  match decode_access_token key now token2 with
  | .error e => .uncaught e
  | .ok none => .httpError 401 "Invalid or expired token"
  | .ok (some user_id) =>
    match findById db user_id with
    | none => .httpError 404 "User not found"
    | some user => .ok user

/-- Route `GET /auth/me` of the top-level snapshot: FastAPI first resolves the
    `Depends(oauth2_scheme)` parameter (which can itself reject the
    request), then runs the handler body. -/
def auth_me (key : String) (now : Int) (req : Request) (db : Db) :
    MeOutcome :=
  match oauth2_scheme req with
  | .error (s, d) => .httpError s d
  | .ok token0 => get_current_user_body key now req db token0

/-! ## Nested snapshot `src/auth.py` -/

/-- Result value of the nested `decode_access_token`: either the subject
    id or the dictionary `{"message": "Failed to decode access token"}`
    it returns on failure. -/
inductive NestedDecodeResult where
  | uid (i : Int)
  | failMessage (s : String)
  deriving DecidableEq

/-- Function `decode_access_token(token)` of the nested snapshot: a falsy token,
    a `JWTError` or a `ValueError` all yield the message dictionary
    (never `None`); `TypeError` from `int(None)` still escapes. -/
def nested_decode_access_token (key : String) (now : Int) :
    Option TokenStr → Except PyError NestedDecodeResult
  | none => .ok (.failMessage "Failed to decode access token")
  | some t =>
    if !t.truthy then .ok (.failMessage "Failed to decode access token")
    else
      match jwtDecode key [ALGORITHM] now t with
      | .error _ => .ok (.failMessage "Failed to decode access token")
      | .ok payload =>
        match pyInt payload.user_id with
        | .ok i => .ok (.uid i)
        | .error .valueError =>
          .ok (.failMessage "Failed to decode access token")
        | .error .typeError => .error .typeError

/-- Result value of the nested `create_user_in_db`: the created user or
    the dictionary `{"message": "A user with such username already exists"}`
    it returns on a conflict. -/
inductive NestedCreateResult where
  | user (u : Users)
  | message (s : String)
  deriving DecidableEq

/-- Python truthiness of that result: a `Users` instance and a non-empty
    dictionary are both truthy, so `if not user:` in the callers is
    never taken. -/
def NestedCreateResult.truthy : NestedCreateResult → Bool
  | .user _ => true
  | .message _ => true

/-- Function `create_user_in_db` of the nested snapshot: on an existing username
    return the message dictionary without touching the database. -/
def nested_create_user_in_db (salt : Nat) (username password : String)
    (db : Db) : NestedCreateResult × Db :=
  match findByUsername db username with
  | some _ => (.message "A user with such username already exists", db)
  | none =>
    let new_user : Users :=
      { user_id := db.nextId, username := username,
        hashed_password := bcryptHash salt password }
    (.user new_user, { rows := db.rows ++ [new_user], nextId := db.nextId + 1 })

/-- Route `POST /auth/` (`create_user`) of the nested snapshot:
    `if not user:` raise 400, else 201 — but the conflict value is a
    truthy dictionary, so the 400 branch is unreachable. -/
def nested_create_user (salt : Nat) (username password : String) (db : Db) :
    ApiResult × Db :=
  match nested_create_user_in_db salt username password db with
  | (r, db1) =>
    if !r.truthy then (.httpError 400 "Username already exists.", db1)
    else (.success 201 "User created successfully", db1)

/-! ## Claims -/

/-- Claim C1, evaluated at a failing input: on a token string that fails
    JWT decoding, the top-level `decode_access_token` returns the failure
    value `None` and `GET /auth/me` answers 401 — but the nested
    snapshot's `decode_access_token` returns the message dictionary
    instead of `None`, so the `user_id is None` guard of its
    `get_current_user` can never fire on it. -/
theorem C1_nested_decode_failure_is_not_none :
    decode_access_token "your_default_secret" 0 (.malformed "garbage") = .ok none ∧
    auth_me "your_default_secret" 0
      ⟨some ⟨"Bearer", .malformed "garbage"⟩, none⟩ ⟨[], 1⟩
      = .httpError 401 "Invalid or expired token" ∧
    nested_decode_access_token "your_default_secret" 0
      (some (.malformed "garbage"))
      = .ok (.failMessage "Failed to decode access token") :=
  ⟨rfl, rfl, rfl⟩

/-- Claim C2, evaluated at a failing input: in the nested snapshot,
    registering the same username twice reports success (201) both
    times, because `create_user_in_db` returns a truthy dictionary on
    conflict and `if not user:` never raises the 400. -/
theorem C2_nested_duplicate_register_reports_success :
    (nested_create_user 0 "alice" "p@ss1234" ⟨[], 1⟩).1
      = .success 201 "User created successfully" ∧
    (nested_create_user 1 "alice" "other"
        (nested_create_user 0 "alice" "p@ss1234" ⟨[], 1⟩).2).1
      = .success 201 "User created successfully" :=
  ⟨rfl, rfl⟩

/-- Claim C3, evaluated at failing inputs: on a signature-valid token
    whose `user_id` claim is the string "5", `decode_access_token`
    coerces it and returns 5; on a signature-valid token with no
    `user_id` claim, `int(None)` raises `TypeError`, which
    `except (JWTError, ValueError)` does not catch. -/
theorem C3_decode_coerces_string_and_raises_on_missing :
    decode_access_token "your_default_secret" 0
      (.signed ⟨some (.vstr "5"), some 1000⟩ "your_default_secret" "HS256")
      = .ok (some 5) ∧
    decode_access_token "your_default_secret" 0
      (.signed ⟨none, some 1000⟩ "your_default_secret" "HS256")
      = .error .typeError :=
  ⟨rfl, rfl⟩

/-- Claim C4, evaluated at a failing input: a request that carries only
    the cookie — holding a token that decodes fine and whose subject
    exists — is rejected by the top-level `GET /auth/me` with
    401 "Not authenticated", raised by the `oauth2_scheme` dependency
    before the handler's cookie fallback can run. -/
theorem C4_cookie_only_request_rejected_before_fallback :
    decode_access_token "your_default_secret" 0
      (create_access_token "your_default_secret" 0 1 3600) = .ok (some 1) ∧
    findById ⟨[⟨1, "alice", ⟨0, "pw"⟩, true, false⟩], 2⟩ 1
      = some ⟨1, "alice", ⟨0, "pw"⟩, true, false⟩ ∧
    auth_me "your_default_secret" 0
      ⟨none, some (create_access_token "your_default_secret" 0 1 3600)⟩
      ⟨[⟨1, "alice", ⟨0, "pw"⟩, true, false⟩], 2⟩
      = .httpError 401 "Not authenticated" :=
  ⟨rfl, rfl, rfl⟩

/-- Claim C5: decoding immediately after issuance, under the same key
    and algorithm, returns exactly the encoded subject id for every
    positive time-to-live. -/
theorem C5_issue_then_decode_roundtrip (key : String)
    (now user_id expires_delta : Int) (h : 0 < expires_delta) :
    decode_access_token key now
      (create_access_token key now user_id expires_delta)
      = .ok (some user_id) := by
  have hlt : ¬ (now + expires_delta < now) := by omega
  simp [decode_access_token, create_access_token, jwtDecode, ALGORITHM,
    pyInt, hlt]

/-- Witness for C5 at key "k", time 0, subject 7, ttl 60 seconds. -/
theorem C5_issue_then_decode_roundtrip_witness :
    (0 : Int) < 60 ∧
    decode_access_token "k" 0 (create_access_token "k" 0 7 60)
      = .ok (some 7) :=
  ⟨by decide, C5_issue_then_decode_roundtrip "k" 0 7 60 (by decide)⟩

/-- Counterexample to claim C6: a token issued with ttl = 0 is *not*
    rejected when verified at the instant of issuance — python-jose only
    rejects when `exp < now` — so `decode_access_token` returns the
    subject id. -/
theorem C6_ttl_zero_token_accepted_at_issuance :
    decode_access_token "your_default_secret" 0
      (create_access_token "your_default_secret" 0 7 0) = .ok (some 7) :=
  rfl

/-- Claim C6 as amended: once the clock has advanced strictly past the
    token's `exp` timestamp, `jwt.decode` fails with the
    expiry-classified `ExpiredSignatureError` and `decode_access_token`
    returns `None`, never the subject id; a ttl = 0 token is such a
    token from one second after issuance on. -/
theorem C6_decode_rejects_after_expiry (key : String)
    (t0 expires_delta t1 user_id : Int) (h : t0 + expires_delta < t1) :
    jwtDecode key [ALGORITHM] t1
      (create_access_token key t0 user_id expires_delta)
      = .error .expiredSignature ∧
    decode_access_token key t1
      (create_access_token key t0 user_id expires_delta) = .ok none := by
  constructor
  · simp [create_access_token, jwtDecode, ALGORITHM, h]
  · simp [decode_access_token, create_access_token, jwtDecode, ALGORITHM, h]

/-- Witness for C6 as amended: the ttl = 0 token of the counterexample,
    verified one second later, is rejected as expired. -/
theorem C6_decode_rejects_after_expiry_witness :
    (0 : Int) + 0 < 1 ∧
    (jwtDecode "your_default_secret" [ALGORITHM] 1
        (create_access_token "your_default_secret" 0 7 0)
        = .error .expiredSignature ∧
      decode_access_token "your_default_secret" 1
        (create_access_token "your_default_secret" 0 7 0) = .ok none) :=
  ⟨by decide,
    C6_decode_rejects_after_expiry "your_default_secret" 0 0 1 7 (by decide)⟩

/-- Claim C7: the login endpoint produces the very same observable
    outcome — 401 "Invalid credentials." — for a never-registered
    username as for a registered username with a wrong password. -/
theorem C7_login_failure_uniform (cfg : Config) (now : Int) (db : Db)
    (u1 p1 u2 p2 : String) (usr : Users)
    (h1 : findByUsername db u1 = none)
    (h2 : findByUsername db u2 = some usr)
    (h3 : bcryptVerify p2 usr.hashed_password = false) :
    login_for_access_token cfg now u1 p1 db
      = .httpError 401 "Invalid credentials." ∧
    login_for_access_token cfg now u2 p2 db
      = login_for_access_token cfg now u1 p1 db := by
  constructor
  · simp [login_for_access_token, h1]
  · simp [login_for_access_token, h1, h2, h3]

/-- Witness for C7: unknown user "mallory" and registered user "alice"
    with a wrong password get identical 401 outcomes. -/
theorem C7_login_failure_uniform_witness :
    findByUsername ⟨[⟨1, "alice", ⟨0, "right"⟩, true, false⟩], 2⟩ "mallory"
      = none ∧
    findByUsername ⟨[⟨1, "alice", ⟨0, "right"⟩, true, false⟩], 2⟩ "alice"
      = some ⟨1, "alice", ⟨0, "right"⟩, true, false⟩ ∧
    bcryptVerify "wrong"
      (⟨1, "alice", ⟨0, "right"⟩, true, false⟩ : Users).hashed_password
      = false ∧
    (login_for_access_token {} 0 "mallory" "anything"
        ⟨[⟨1, "alice", ⟨0, "right"⟩, true, false⟩], 2⟩
        = .httpError 401 "Invalid credentials." ∧
      login_for_access_token {} 0 "alice" "wrong"
        ⟨[⟨1, "alice", ⟨0, "right"⟩, true, false⟩], 2⟩
        = login_for_access_token {} 0 "mallory" "anything"
            ⟨[⟨1, "alice", ⟨0, "right"⟩, true, false⟩], 2⟩) :=
  ⟨rfl, rfl, rfl,
    C7_login_failure_uniform {} 0 _ "mallory" "anything" "alice" "wrong" _
      rfl rfl rfl⟩

/-- Claim C8: login with the correct password returns `token_type`
    "bearer" and a token whose encoded `user_id` subject is the user's
    id and whose expiry is now plus the configured TTL in minutes; the
    TTL's configured default is 1440 minutes. -/
theorem C8_login_success_issues_bound_token (cfg : Config) (now : Int)
    (db : Db) (username password : String) (usr : Users)
    (h1 : findByUsername db username = some usr)
    (h2 : bcryptVerify password usr.hashed_password = true) :
    login_for_access_token cfg now username password db
      = .ok { access_token := .signed
                ⟨some (.vint usr.user_id),
                  some (now + (cfg.ACCESS_TOKEN_EXPIRE_MINUTES * 60 : Nat))⟩
                cfg.SECRET_KEY ALGORITHM,
              token_type := "bearer" } ∧
    ({} : Config).ACCESS_TOKEN_EXPIRE_MINUTES = 1440 := by
  refine ⟨?_, rfl⟩
  simp [login_for_access_token, h1, h2, create_access_token]

/-- Witness for C8: "alice" logs in with her correct password under the
    default configuration. -/
theorem C8_login_success_issues_bound_token_witness :
    findByUsername ⟨[⟨1, "alice", ⟨0, "p@ss1234"⟩, true, false⟩], 2⟩ "alice"
      = some ⟨1, "alice", ⟨0, "p@ss1234"⟩, true, false⟩ ∧
    bcryptVerify "p@ss1234"
      (⟨1, "alice", ⟨0, "p@ss1234"⟩, true, false⟩ : Users).hashed_password
      = true ∧
    (login_for_access_token {} 0 "alice" "p@ss1234"
        ⟨[⟨1, "alice", ⟨0, "p@ss1234"⟩, true, false⟩], 2⟩
        = .ok { access_token := .signed
                  ⟨some (.vint 1),
                    some ((0 : Int) +
                      (({} : Config).ACCESS_TOKEN_EXPIRE_MINUTES * 60 : Nat))⟩
                  ({} : Config).SECRET_KEY ALGORITHM,
                token_type := "bearer" } ∧
      ({} : Config).ACCESS_TOKEN_EXPIRE_MINUTES = 1440) :=
  ⟨rfl, rfl,
    C8_login_success_issues_bound_token {} 0
      ⟨[⟨1, "alice", ⟨0, "p@ss1234"⟩, true, false⟩], 2⟩ "alice" "p@ss1234"
      ⟨1, "alice", ⟨0, "p@ss1234"⟩, true, false⟩ rfl rfl⟩

/-- Claim C9: a request presenting (via the bearer header) a token that
    decodes to a subject id with no matching user is answered by
    `GET /auth/me` with 404 "User not found" — not 401 and not a
    success. -/
theorem C9_valid_token_unknown_subject_404 (key : String) (now : Int)
    (db : Db) (t : TokenStr) (cookie : Option TokenStr) (user_id : Int)
    (h1 : decode_access_token key now t = .ok (some user_id))
    (h2 : findById db user_id = none) :
    auth_me key now ⟨some ⟨"Bearer", t⟩, cookie⟩ db
      = .httpError 404 "User not found" := by
  have hb : (pyLower "Bearer" == "bearer") = true := rfl
  cases t with
  | malformed s =>
    exfalso
    simp [decode_access_token, jwtDecode] at h1
  | signed payload k alg =>
    simp [auth_me, oauth2_scheme, hb, get_current_user_body,
      TokenStr.truthy, h1, h2]

/-- Witness for C9: a freshly issued token for subject 5 against an
    empty users table. -/
theorem C9_valid_token_unknown_subject_404_witness :
    decode_access_token "k" 0 (create_access_token "k" 0 5 60)
      = .ok (some 5) ∧
    findById ⟨[], 1⟩ 5 = none ∧
    auth_me "k" 0 ⟨some ⟨"Bearer", create_access_token "k" 0 5 60⟩, none⟩
      ⟨[], 1⟩ = .httpError 404 "User not found" :=
  ⟨rfl, rfl,
    C9_valid_token_unknown_subject_404 "k" 0 _ _ none 5 rfl rfl⟩

/-- Claim C10: when the requested username already exists, both
    snapshots' `create_user_in_db` return their conflict value with the
    database state exactly unchanged — no add, no commit. -/
theorem C10_register_conflict_leaves_db_unchanged (salt : Nat)
    (username password : String) (db : Db) (usr : Users)
    (h : findByUsername db username = some usr) :
    create_user_in_db salt username password db = (none, db) ∧
    nested_create_user_in_db salt username password db
      = (.message "A user with such username already exists", db) := by
  constructor
  · simp [create_user_in_db, h]
  · simp [nested_create_user_in_db, h]

/-- Witness for C10: a second registration of "alice" leaves the table
    untouched in both snapshots. -/
theorem C10_register_conflict_leaves_db_unchanged_witness :
    findByUsername ⟨[⟨1, "alice", ⟨0, "pw"⟩, true, false⟩], 2⟩ "alice"
      = some ⟨1, "alice", ⟨0, "pw"⟩, true, false⟩ ∧
    (create_user_in_db 9 "alice" "other"
        ⟨[⟨1, "alice", ⟨0, "pw"⟩, true, false⟩], 2⟩
        = (none, ⟨[⟨1, "alice", ⟨0, "pw"⟩, true, false⟩], 2⟩) ∧
      nested_create_user_in_db 9 "alice" "other"
        ⟨[⟨1, "alice", ⟨0, "pw"⟩, true, false⟩], 2⟩
        = (.message "A user with such username already exists",
            ⟨[⟨1, "alice", ⟨0, "pw"⟩, true, false⟩], 2⟩)) :=
  ⟨rfl,
    C10_register_conflict_leaves_db_unchanged 9 "alice" "other" _ _ rfl⟩

end Budget
